import Mathlib

/-!
Verification development for the PenguinMod VM JIT compiler core
(`src/compiler/jsgen.js`) and the kinetic interpolator
(the unnamed `tw-interpolate`-style module).

The JavaScript sources are shallowly embedded:

* JavaScript runtime numbers are modelled by `JSNum`: exact decimal values
  (an integer mantissa over a power-of-ten denominator) plus the special
  values NaN, +Infinity, -Infinity and the signed zero `-0`.
  Floating-point rounding and overflow are not modelled; every claim below
  depends only on the special values and on exact decimal arithmetic.
* JavaScript's implicit string-to-number coercion (`+v`) is modelled by
  `strToNumber`, covering the fragment the compiler's constant folding
  actually exercises: optional whitespace, optional sign, decimal literals
  with fraction and exponent, `Infinity`, and unsigned radix literals
  (`0x`, `0o`, `0b`).  Unparsable strings coerce to NaN, as in JavaScript.
* `Number.prototype.toString` is modelled by `jsNumToString` for NaN, the
  infinities, signed zero and terminating decimals (the only values the
  embedded coercions can produce); JavaScript's exponent notation for
  very large/small magnitudes is outside the modelled fragment.
* The kinetic interpolator's numerics are modelled over `ℚ`.
-/

/-- Model of a JavaScript number: NaN, the two infinities, negative zero,
or a finite decimal `fin m e` denoting `m / 10 ^ e`.  All constructors in
this development produce the canonical form (`e` minimal, and `m = 0` only
as `fin 0 0`); `fin 0 0` is `+0`. -/
inductive JSNum where
  | nan : JSNum
  | inf : JSNum
  | ninf : JSNum
  | negZero : JSNum
  | fin : ℤ → ℕ → JSNum
deriving DecidableEq

/-- Model of a JavaScript value that can appear as a block constant:
either a string or a number. -/
inductive JSVal where
  | str : String → JSVal
  | num : JSNum → JSVal
deriving DecidableEq

/-- Strip factors of ten from a mantissa/exponent pair. -/
def stripTens : ℤ → ℕ → ℤ × ℕ
  | m, 0 => (m, 0)
  | m, e + 1 => if m % 10 = 0 then stripTens (m / 10) e else (m, e + 1)

/-- Canonical finite decimal `m / 10 ^ e`. -/
def mkFin (m : ℤ) (e : ℕ) : JSNum :=
  if m = 0 then .fin 0 0
  else
    match stripTens m e with
    | (m', e') => .fin m' e'

/-- JavaScript truthiness of a number: `0`, `-0` and `NaN` are falsy. -/
def JSNum.truthy : JSNum → Bool
  | .nan => false
  | .negZero => false
  | .fin m _ => m != 0
  | .inf => true
  | .ninf => true

/-- JavaScript `value === 0`; note `-0 === 0` is true. -/
def JSNum.isZeroJS : JSNum → Bool
  | .fin m _ => m == 0
  | .negZero => true
  | _ => false

/-- JavaScript `Number.isNaN`. -/
def JSNum.isNaNb : JSNum → Bool
  | .nan => true
  | _ => false

/-- JavaScript `Number.isFinite`. -/
def JSNum.isFiniteb : JSNum → Bool
  | .fin _ _ => true
  | .negZero => true
  | _ => false

/-- Trim of leading and trailing whitespace (JavaScript string `trim`). -/
def jsTrim (s : String) : String :=
  String.mk (((s.toList.dropWhile Char.isWhitespace).reverse.dropWhile
    Char.isWhitespace).reverse)

/-- Value of a decimal digit character. -/
def digitVal (c : Char) : Nat := c.toNat - 48

/-- Numeric value of a list of decimal digit characters. -/
def digitsVal (l : List Char) : Nat := l.foldl (fun a c => a * 10 + digitVal c) 0

/-- Whether a character is a digit in base `r` (`r` is 2, 8 or 16 here). -/
def isRadixDigit (r : Nat) (c : Char) : Bool :=
  if r ≤ 10 then c.isDigit && digitVal c < r
  else c.isDigit || (97 ≤ c.toNat && c.toNat < 97 + (r - 10))
        || (65 ≤ c.toNat && c.toNat < 65 + (r - 10))

/-- Value of a digit character in base `r`. -/
def radixDigitVal (c : Char) : Nat :=
  if c.isDigit then digitVal c
  else if 97 ≤ c.toNat then c.toNat - 87
  else c.toNat - 55

/-- Numeric value of a radix literal body, or NaN when malformed/empty. -/
def radixParse (r : Nat) (l : List Char) : JSNum :=
  if l ≠ [] ∧ l.all (isRadixDigit r) then
    .fin ((l.foldl (fun a c => a * r + radixDigitVal c) 0 : Nat) : ℤ) 0
  else .nan

/-- Parse the mantissa of a decimal literal: `digits`, `digits.digits`,
`digits.` or `.digits` (at least one digit overall); the result is the
digit value together with the number of fraction digits. -/
def parseMantissa (l : List Char) : Option (ℕ × ℕ) :=
  let intPart := l.takeWhile Char.isDigit
  let rest := l.dropWhile Char.isDigit
  match rest with
  | [] => if intPart.isEmpty then none else some (digitsVal intPart, 0)
  | '.' :: frac =>
      if frac.all Char.isDigit && !(intPart.isEmpty && frac.isEmpty) then
        some (digitsVal (intPart ++ frac), frac.length)
      else none
  | _ => none

/-- Parse an exponent body (after `e`/`E`): optional sign then digits. -/
def parseExp : List Char → Option ℤ
  | '+' :: ds => if ds ≠ [] ∧ ds.all Char.isDigit then some ((digitsVal ds : ℕ) : ℤ) else none
  | '-' :: ds => if ds ≠ [] ∧ ds.all Char.isDigit then some (-((digitsVal ds : ℕ) : ℤ)) else none
  | ds => if ds ≠ [] ∧ ds.all Char.isDigit then some ((digitsVal ds : ℕ) : ℤ) else none

/-- Apply a power-of-ten exponent to a mantissa/fraction-length pair. -/
def applyExp (m : ℕ) (e : ℕ) (p : ℤ) : ℤ × ℕ :=
  if 0 ≤ p then
    if e ≤ p.toNat then ((m * 10 ^ (p.toNat - e) : ℕ), 0) else ((m : ℤ), e - p.toNat)
  else ((m : ℤ), e + (-p).toNat)

/-- Split a decimal literal at the exponent marker, if present. -/
def splitOnExp (l : List Char) : List Char × Option (List Char) :=
  match l.findIdx? (fun c => c == 'e' || c == 'E') with
  | none => (l, none)
  | some i => (l.take i, some (l.drop (i + 1)))

/-- Parse an unsigned decimal literal with optional exponent; the result
is a (mantissa, fraction-length) pair denoting `m / 10 ^ e`. -/
def parseDecimal (l : List Char) : Option (ℤ × ℕ) :=
  match splitOnExp l with
  | (m, none) =>
    match parseMantissa m with
    | some (v, e) => some ((v : ℤ), e)
    | none => none
  | (m, some el) =>
    match parseMantissa m, parseExp el with
    | some (v, e), some p => some (applyExp v e p)
    | _, _ => none

/-- Parse the part of a numeric string after an explicit sign (decimal or
`Infinity`; JavaScript does not allow radix literals after a sign). -/
def signedCore (neg : Bool) (l : List Char) : JSNum :=
  if l == "Infinity".toList then (if neg then .ninf else .inf)
  else
    match parseDecimal l with
    | some (m, e) =>
        if neg ∧ m = 0 then .negZero
        else mkFin (if neg then -m else m) e
    | none => .nan

/-- Parse an unsigned numeric string: `Infinity`, radix literal or decimal. -/
def unsignedCore (l : List Char) : JSNum :=
  if l == "Infinity".toList then .inf
  else
    match l with
    | '0' :: 'x' :: ds => radixParse 16 ds
    | '0' :: 'X' :: ds => radixParse 16 ds
    | '0' :: 'o' :: ds => radixParse 8 ds
    | '0' :: 'O' :: ds => radixParse 8 ds
    | '0' :: 'b' :: ds => radixParse 2 ds
    | '0' :: 'B' :: ds => radixParse 2 ds
    | l' =>
      match parseDecimal l' with
      | some (m, e) => mkFin m e
      | none => .nan

/-- JavaScript `ToNumber` on a string (`+s`): trim whitespace, the empty
string is `0`, then an optionally signed numeric literal; otherwise NaN. -/
def strToNumber (s : String) : JSNum :=
  let t := jsTrim s
  if t == "" then .fin 0 0
  else
    match t.toList with
    | '+' :: rest => signedCore false rest
    | '-' :: rest => signedCore true rest
    | l => unsignedCore l

/-- JavaScript `+v` on a constant value. -/
def jsToNumber : JSVal → JSNum
  | .str s => strToNumber s
  | .num n => n

/-- Decimal string of a nonnegative mantissa with `e` fraction digits. -/
def decimalDigitsString (n : ℕ) (e : ℕ) : String :=
  if e = 0 then toString n
  else
    let s := toString n
    let s := if s.length < e + 1 then
        String.mk (List.replicate (e + 1 - s.length) '0') ++ s
      else s
    let cut := s.length - e
    String.mk (s.toList.take cut) ++ "." ++ String.mk (s.toList.drop cut)

/-- JavaScript `Number.prototype.toString` on the modelled numbers.
Note `(-0).toString()` is `"0"`. -/
def jsNumToString : JSNum → String
  | .nan => "NaN"
  | .inf => "Infinity"
  | .ninf => "-Infinity"
  | .negZero => "0"
  | .fin m e => if m < 0 then "-" ++ decimalDigitsString (-m).toNat e
      else decimalDigitsString m.toNat e

/-- JavaScript string coercion of a constant value (`'' + v`). -/
def jsValToString : JSVal → String
  | .str s => s
  | .num n => jsNumToString n

/-! ## Typed value abstraction (`jsgen.js` lines 18-327)

The three `Input` classes of `jsgen.js` are modelled as one inductive:
`typed` is `TypedInput (source, type)`, `const` is
`ConstantInput (constantValue, safe)`, and `var` is `VariableInput`
with its `source`, current `type` and tracked `_value` (the value the
variable was most recently set to, `none` when the tracker is cleared).
-/

/-- Type tags of `jsgen.js` (`TYPE_NUMBER` .. `TYPE_NUMBER_NAN`). -/
def TYPE_NUMBER : Nat := 1

/-- Type tag `TYPE_STRING`. -/
def TYPE_STRING : Nat := 2

/-- Type tag `TYPE_BOOLEAN`. -/
def TYPE_BOOLEAN : Nat := 3

/-- Type tag `TYPE_UNKNOWN`. -/
def TYPE_UNKNOWN : Nat := 4

/-- Type tag `TYPE_NUMBER_NAN`. -/
def TYPE_NUMBER_NAN : Nat := 5

/-- The three compiler input flavours (`TypedInput`, `ConstantInput`,
`VariableInput`). -/
inductive Inp where
  | typed : String → Nat → Inp
  | const : JSVal → Bool → Inp
  | var : String → Nat → Option Inp → Inp

/-- JSON-style escaping of one character, as done by `sanitize` via
`JSON.stringify` (control characters other than the common escapes are
outside the modelled fragment). -/
def escapeChar (c : Char) : String :=
  if c = '"' then "\\\""
  else if c = '\\' then "\\\\"
  else if c = '\n' then "\\n"
  else if c = '\r' then "\\r"
  else if c = '\t' then "\\t"
  else String.mk [c]

/-- The `sanitize` helper of `jsgen.js`: JSON-escape a string body. -/
def sanitize (s : String) : String := String.join (s.toList.map escapeChar)

/-- `ConstantInput.asNumber`: fold the coercion at compile time; truthy
numbers print via `toString`, `-0` prints as `-0`, `0`/NaN as `0`. -/
def ConstantInput.asNumber (v : JSVal) : String :=
  let numberValue := jsToNumber v
  if numberValue.truthy then jsNumToString numberValue
  else if numberValue = .negZero then "-0"
  else "0"

/-- `ConstantInput.asString`: the quoted, sanitized string form. -/
def ConstantInput.asString (v : JSVal) : String :=
  "\"" ++ sanitize (jsValToString v) ++ "\""

/-- `ConstantInput.asUnknown`: numbers pass through; strings that
round-trip through numeric coercion pass through, others are quoted.
(A raw number return is spliced into a template string in the source,
hence the `jsNumToString` here.) -/
def ConstantInput.asUnknown (v : JSVal) : String :=
  match v with
  | .num n => jsNumToString n
  | .str s =>
      if jsNumToString (jsToNumber (.str s)) == s then s
      else ConstantInput.asString (.str s)

/-- `ConstantInput.isAlwaysNumber`: non-NaN coercion, and a zero coercion
only counts when the trimmed textual form is non-empty. -/
def ConstantInput.isAlwaysNumber (v : JSVal) : Bool :=
  let value := jsToNumber v
  if value.isNaNb then false
  else if value.isZeroJS then jsTrim (jsValToString v) != ""
  else true

/-- The type tag a `VariableInput` adopts from an assigned input:
`TypedInput`s keep their tag, everything else is `TYPE_UNKNOWN`. -/
def inputType : Inp → Nat
  | .typed _ t => t
  | _ => TYPE_UNKNOWN

/-- `VariableInput.setInput`: when assigned another variable, the inner
tracked value is copied (or the tracker cleared when the inner tracker is
empty) to prevent self-referential cycles; otherwise the input is stored
and the type tag updated. Non-variable receivers are returned unchanged
(the method only exists on `VariableInput`). -/
def VariableInput.setInput : Inp → Inp → Inp
  | .var src _ _, .var _ _ (some inner) => .var src (inputType inner) (some inner)
  | .var src _ _, .var _ _ none => .var src TYPE_UNKNOWN none
  | .var src _ _, inp => .var src (inputType inp) (some inp)
  | this, _ => this

/-- `isAlwaysNumber` across the three input flavours: `TypedInput` checks
the tag, `ConstantInput` folds, `VariableInput` delegates to the tracked
value and is false when the tracker is empty. -/
def Inp.isAlwaysNumber : Inp → Bool
  | .typed _ t => t == TYPE_NUMBER
  | .const v _ => ConstantInput.isAlwaysNumber v
  | .var _ _ (some value) => value.isAlwaysNumber
  | .var _ _ none => false

/-- `isAlwaysNumberOrNaN` across the three input flavours (for constants
it coincides with `isAlwaysNumber`, as in the source). -/
def Inp.isAlwaysNumberOrNaN : Inp → Bool
  | .typed _ t => t == TYPE_NUMBER || t == TYPE_NUMBER_NAN
  | .const v _ => ConstantInput.isAlwaysNumber v
  | .var _ _ (some value) => value.isAlwaysNumberOrNaN
  | .var _ _ none => false

/-- `isNeverNumber`: always false for `TypedInput`, NaN coercion for
`ConstantInput`, delegation for `VariableInput`. -/
def Inp.isNeverNumber : Inp → Bool
  | .typed _ _ => false
  | .const v _ => (jsToNumber v).isNaNb
  | .var _ _ (some value) => value.isNeverNumber
  | .var _ _ none => false

/-- `asNumber` across the three input flavours (`TypedInput` and
`VariableInput` share the type-tag based emission). -/
def Inp.asNumber : Inp → String
  | .typed s t =>
      if t == TYPE_NUMBER then s
      else if t == TYPE_NUMBER_NAN then "(" ++ s ++ " || 0)"
      else "(+" ++ s ++ " || 0)"
  | .const v _ => ConstantInput.asNumber v
  | .var s t _ =>
      if t == TYPE_NUMBER then s
      else if t == TYPE_NUMBER_NAN then "(" ++ s ++ " || 0)"
      else "(+" ++ s ++ " || 0)"

/-- `asNumberOrNaN` across the three input flavours (constants reuse
`asNumber`). -/
def Inp.asNumberOrNaN : Inp → String
  | .typed s t =>
      if t == TYPE_NUMBER || t == TYPE_NUMBER_NAN then s else "(+" ++ s ++ ")"
  | .const v _ => ConstantInput.asNumber v
  | .var s t _ =>
      if t == TYPE_NUMBER || t == TYPE_NUMBER_NAN then s else "(+" ++ s ++ ")"

/-- `asString` across the three input flavours. -/
def Inp.asString : Inp → String
  | .typed s t => if t == TYPE_STRING then s else "(\"\" + " ++ s ++ ")"
  | .const v _ => ConstantInput.asString v
  | .var s t _ => if t == TYPE_STRING then s else "(\"\" + " ++ s ++ ")"

/-- `asUnknown` across the three input flavours. -/
def Inp.asUnknown : Inp → String
  | .typed s _ => s
  | .const v _ => ConstantInput.asUnknown v
  | .var s _ _ => s

/-- `asSafe`: like `asUnknown`, except unsafe constants (costume/sound
name collisions) are forced to their string form. -/
def Inp.asSafe : Inp → String
  | .typed s _ => s
  | .const v safe => if safe then ConstantInput.asUnknown v else ConstantInput.asString v
  | .var s _ _ => s

/-- Whether an input is a `ConstantInput` (`instanceof ConstantInput`). -/
def Inp.isConstantInput : Inp → Bool
  | .const _ _ => true
  | _ => false

/-- Whether an input is a `VariableInput` (`instanceof VariableInput`). -/
def Inp.isVariableInput : Inp → Bool
  | .var _ _ _ => true
  | _ => false

/-- `isSafeConstantForEqualsOptimization`: never optimize a falsy
coercion, and require the coerced value to print back to the constant's
own textual form. -/
def isSafeConstantForEqualsOptimization : Inp → Bool
  | .const v _ =>
      let numberValue := jsToNumber v
      if !numberValue.truthy then false
      else jsNumToString numberValue == jsValToString v
  | _ => false

/-! ## Comparison lowering (`jsgen.js` `op.equals`, `op.less`, `op.greater`)

The branch structure of the three comparison cases of `descendInput` is
made explicit as a strategy selector plus an emitter, so that theorems can
speak about which branch fires.  The selectors follow the source order of
the guards exactly. -/

/-- Which branch of the `op.equals` case fires. -/
inductive EqStrategy where
  | stringCompare : EqStrategy
  | numeric : EqStrategy
  | safeLeft : EqStrategy
  | safeRight : EqStrategy
  | fallback : EqStrategy
deriving DecidableEq

/-- Branch selection for `op.equals` (source lines 617-639): never-number
operands force the lowercased string compare; two always-numbers compare
numerically; otherwise a safe constant on either side still compares
numerically; else the `compareEqual` helper. -/
def equalsStrategy (left right : Inp) : EqStrategy :=
  if left.isNeverNumber || right.isNeverNumber then .stringCompare
  else if left.isAlwaysNumber && right.isAlwaysNumber then .numeric
  else if left.isAlwaysNumber && left.isConstantInput
      && isSafeConstantForEqualsOptimization left then .safeLeft
  else if right.isAlwaysNumber && right.isConstantInput
      && isSafeConstantForEqualsOptimization right then .safeRight
  else .fallback

/-- Emitted source for `op.equals`, by branch. -/
def equalsSource (left right : Inp) : String :=
  match equalsStrategy left right with
  | .stringCompare =>
      "(" ++ left.asString ++ ".toLowerCase() === " ++ right.asString ++ ".toLowerCase())"
  | .numeric | .safeLeft | .safeRight =>
      "(" ++ left.asNumber ++ " === " ++ right.asNumber ++ ")"
  | .fallback => "compareEqual(" ++ left.asUnknown ++ ", " ++ right.asUnknown ++ ")"

/-- Which branch of the `op.less` / `op.greater` cases fires. -/
inductive CmpStrategy where
  | direct : CmpStrategy
  | negated : CmpStrategy
  | stringCompare : CmpStrategy
  | fallback : CmpStrategy
deriving DecidableEq

/-- Branch selection for `op.less` (source lines 666-683): number/NaN on
the left against a number uses `<`; number against number/NaN negates
`>=`; only then never-number operands fall to the string compare. -/
def lessStrategy (left right : Inp) : CmpStrategy :=
  if left.isAlwaysNumberOrNaN && right.isAlwaysNumber then .direct
  else if left.isAlwaysNumber && right.isAlwaysNumberOrNaN then .negated
  else if left.isNeverNumber || right.isNeverNumber then .stringCompare
  else .fallback

/-- Emitted source for `op.less`, by branch. -/
def lessSource (left right : Inp) : String :=
  match lessStrategy left right with
  | .direct => "(" ++ left.asNumberOrNaN ++ " < " ++ right.asNumber ++ ")"
  | .negated => "!(" ++ left.asNumber ++ " >= " ++ right.asNumberOrNaN ++ ")"
  | .stringCompare =>
      "(" ++ left.asString ++ ".toLowerCase() < " ++ right.asString ++ ".toLowerCase())"
  | .fallback => "compareLessThan(" ++ left.asUnknown ++ ", " ++ right.asUnknown ++ ")"

/-- Branch selection for `op.greater` (source lines 644-661). -/
def greaterStrategy (left right : Inp) : CmpStrategy :=
  if left.isAlwaysNumber && right.isAlwaysNumberOrNaN then .direct
  else if left.isAlwaysNumberOrNaN && right.isAlwaysNumber then .negated
  else if left.isNeverNumber || right.isNeverNumber then .stringCompare
  else .fallback

/-- Emitted source for `op.greater`, by branch. -/
def greaterSource (left right : Inp) : String :=
  match greaterStrategy left right with
  | .direct => "(" ++ left.asNumber ++ " > " ++ right.asNumberOrNaN ++ ")"
  | .negated => "!(" ++ left.asNumberOrNaN ++ " <= " ++ right.asNumber ++ ")"
  | .stringCompare =>
      "(" ++ left.asString ++ ".toLowerCase() > " ++ right.asString ++ ".toLowerCase())"
  | .fallback => "compareGreaterThan(" ++ left.asUnknown ++ ", " ++ right.asUnknown ++ ")"

/-! ## Generator state (`jsgen.js` `Frame`, `JSGenerator`)

The per-compile state of `JSGenerator` is the `Gen` structure; emission is
modelled by explicit state passing, and thrown errors by `Except String`.
The frame array stores the most recent frame last, as in the source.
Extension transformers are outside the embedding (the registry is taken
to be empty, as before any `setExtensionJs` call). -/

/-- A `Frame`: structural context for the substack being compiled. -/
structure Frame where
  isLoop : Bool
  isLastBlock : Bool
deriving DecidableEq

/-- The `Frame` constructor: `isLastBlock` starts out false. -/
def Frame.mk' (isLoop : Bool) : Frame := ⟨isLoop, false⟩

/-- Data the generator reads from `ir.procedures[variant]`: whether the
procedure has a stack (`stack === null` marks an empty procedure — the
stack's contents are never read by the call lowering, only its nullness),
whether it yields, and its argument count. -/
structure ProcData where
  hasStack : Bool
  yields : Bool
  argCount : Nat
deriving DecidableEq

/-- The expression-node fragment of the IR that the claims exercise. -/
inductive Node where
  | constant : JSVal → Node
  | opEquals : Node → Node → Node
  | broadcastFunction : Node → Node

/-- The statement-node fragment of the IR that the claims exercise. -/
inductive StmtNode where
  | controlWait : Node → StmtNode
  | eventBroadcast : Node → StmtNode
  | proceduresCall : String → String → List Node → Bool → StmtNode

/-- Per-compile generator state (the fields of `JSGenerator` the embedded
fragment reads or writes). -/
structure Gen where
  source : String
  variableInputs : List (String × Inp)
  isWarp : Bool
  isProcedure : Bool
  warpTimer : Bool
  scriptYields : Bool
  scriptProcedureCode : String
  frames : List Frame
  localCounter : Nat
  names : List String
  procedures : List (String × ProcData)

/-- Append text to the emitted source. -/
def emit (g : Gen) (s : String) : Gen := { g with source := g.source ++ s }

/-- `resetVariableInputs`: drop every tracker entry. -/
def resetVariableInputs (g : Gen) : Gen := { g with variableInputs := [] }

/-- `pushFrame`: the new frame becomes the last array entry. -/
def pushFrame (g : Gen) (f : Frame) : Gen := { g with frames := g.frames ++ [f] }

/-- `popFrame`: remove the last array entry. -/
def popFrame (g : Gen) : Gen := { g with frames := g.frames.dropLast }

/-- Set the `isLastBlock` flag of the current (= last pushed) frame, as
`descendStack`'s loop does on each iteration. -/
def setLastBlockFlag (b : Bool) : List Frame → List Frame
  | [] => []
  | [f] => [{ f with isLastBlock := b }]
  | f :: rest => f :: setLastBlockFlag b rest

/-- The scan inside `isLastBlockInLoop`, walking frames innermost-first:
stop with false at the first frame that is not a last block, with true at
the first loop frame. -/
def lastBlockScan : List Frame → Bool
  | [] => false
  | f :: rest =>
      if !f.isLastBlock then false
      else if f.isLoop then true
      else lastBlockScan rest

/-- `isLastBlockInLoop`: the source iterates the frame array from its
last (= innermost) entry downwards, i.e. scans `frames.reverse`. -/
def Gen.isLastBlockInLoop (g : Gen) : Bool := lastBlockScan g.frames.reverse

/-- Digit character for base-36 numerals. -/
def base36Digit (n : Nat) : Char :=
  if n < 10 then Char.ofNat (48 + n) else Char.ofNat (87 + n)

/-- Base-36 numeral of a natural number (fuelled by the number itself). -/
def base36Core (fuel n : Nat) : List Char :=
  match fuel with
  | 0 => []
  | fuel + 1 =>
      if n < 36 then [base36Digit n]
      else base36Core fuel (n / 36) ++ [base36Digit (n % 36)]

/-- Base-36 numeral of a natural number. -/
def base36 (n : Nat) : String := String.mk (base36Core (n + 1) n)

/-- Modelled from the spec: the `VariablePool` class
(`src/compiler/variable-pool.js`, not among the provided sources) —
"`next()` returns prefix + counter++ as a base-36 numeral".  This models
`this.localVariables.next()` for the per-compile pool with prefix `a`. -/
def localNext (g : Gen) : String × Gen :=
  ("a" ++ base36 g.localCounter, { g with localCounter := g.localCounter + 1 })

/-- `yielded`: fail compilation when the script is not marked as
yielding, and otherwise clear the variable tracker (control may have
passed to another script). -/
def yielded (g : Gen) : Except String Gen :=
  if !g.scriptYields then .error "Script yielded but is not marked as yielding."
  else .ok (resetVariableInputs g)

/-- `yieldNotWarp`: emit a `yield` only when warp mode is off. -/
def yieldNotWarp (g : Gen) : Except String Gen :=
  if !g.isWarp then yielded (emit g "yield;\n")
  else .ok g

/-- `yieldStuckOrNotWarp`: in warp mode yield only when stuck, otherwise
yield unconditionally; either way the emission counts as a yield. -/
def yieldStuckOrNotWarp (g : Gen) : Except String Gen :=
  if g.isWarp then yielded (emit g "if (isStuck()) yield;\n")
  else yielded (emit g "yield;\n")

/-- `yieldLoop`: loops yield stuck-or-not-warp under a warp timer, and
not-warp otherwise. -/
def yieldLoop (g : Gen) : Except String Gen :=
  if g.warpTimer then yieldStuckOrNotWarp g else yieldNotWarp g

/-- `requestRedraw`: emit the redraw request. -/
def requestRedraw (g : Gen) : Gen := emit g "runtime.requestRedraw();\n"

/-- `safeConstantInput`: string constants that collide with a costume or
sound name are marked unsafe. -/
def safeConstantInput (g : Gen) (v : JSVal) : Inp :=
  let isUnsafe := match v with
    | .str s => g.names.contains s
    | .num _ => false
  .const v (!isUnsafe)

/-- Association-list lookup (for `ir.procedures[variant]`). -/
def lookupAssoc {α : Type} : List (String × α) → String → Option α
  | [], _ => none
  | (k, a) :: rest, key => if k == key then some a else lookupAssoc rest key

/-- `descendInput` on the embedded expression fragment.  The `op.equals`
case descends both operands and defers to `equalsSource`; the
`pmEventsExpansion.broadcastFunction` case builds its generator-wrapped
source exactly as in the source text, clearing the variable tracker but
never consulting `script.yields`. -/
def descendInput : Node → Gen → Except String (Inp × Gen)
  | .constant v, g => .ok (safeConstantInput g v, g)
  | .opEquals l r, g => do
      let (left, g) ← descendInput l g
      let (right, g) ← descendInput r g
      .ok (.typed (equalsSource left right) TYPE_BOOLEAN, g)
  | .broadcastFunction b, g => do
      let s0 := "(yield* (function*() \x7b"
      let (threads, g) := localNext g
      let (bc, g) ← descendInput b g
      let s1 := "var " ++ threads
        ++ " = startHats(\"event_whenbroadcastreceived\", \x7b BROADCAST_OPTION: "
        ++ bc.asString ++ " \x7d);"
      let s2 := "waitThreads(" ++ threads ++ ");"
      let sy := if g.isWarp then "if (isStuck()) yield;\n" else "yield;\n"
      let g := resetVariableInputs g
      let (value, g) := localNext g
      let (thr, g) := localNext g
      let s3 := "var " ++ value ++ " = undefined;"
      let s4 := "for (var " ++ thr ++ " of " ++ threads ++ ") \x7b"
      let s5 := "if (typeof " ++ thr ++ ".__evex_returnDataa !== \x27undefined\x27) \x7b"
      let s6 := "return " ++ thr ++ ".__evex_returnDataa;"
      let s7 := "return \x27\x27;"
      let s8 := "\x7d)())"
      .ok (.typed (s0 ++ s1 ++ s2 ++ sy ++ s3 ++ s4 ++ s5 ++ s6 ++ "\x7d" ++ "\x7d" ++ s7 ++ s8)
        TYPE_STRING, g)

/-- Descend a list of argument inputs, collecting their `asSafe` forms
(the argument loop of the `procedures.call` statement case). -/
def descendArgsAsSafe : List Node → Gen → Except String (List String × Gen)
  | [], g => .ok ([], g)
  | n :: rest, g => do
      let (inp, g) ← descendInput n g
      let (tail, g) ← descendArgsAsSafe rest g
      .ok (inp.asSafe :: tail, g)

/-- The recursion guard of the `procedures.call` statement lowering:
direct recursion outside warp mode yields first. -/
def procCallRecursionYield (code : String) (g : Gen) : Except String Gen :=
  if !g.isWarp && code == g.scriptProcedureCode then yieldNotWarp g else .ok g

/-- The yield-delegation guard of the `procedures.call` statement
lowering: a yielding callee emits `yield* ` and requires the enclosing
script to be marked as yielding. -/
def procCallYieldMark (calleeYields : Bool) (g : Gen) : Except String Gen :=
  if calleeYields then
    let g := emit g "yield* "
    if !g.scriptYields then
      .error "Script uses yielding procedure but is not marked as yielding."
    else .ok g
  else .ok g

/-- The argument emission of the `procedures.call` statement lowering:
arguments are only included when the procedure accepts any. -/
def procCallArgs (argCount : Nat) (args : List Node) (g : Gen) : Except String Gen :=
  if argCount != 0 then do
    let (argStrs, g) ← descendArgsAsSafe args g
    .ok (emit g (String.intercalate "," argStrs))
  else .ok g

/-- `descendStackedBlock` on the embedded statement fragment:
`control.wait` (timer, redraw, unconditional-for-duration not-warp yield,
stuck-or-not-warp spin, timer reset), `event.broadcast` (start hats, then
clear the tracker) and `procedures.call` (empty procedures generate no
code; direct recursion yields when not warp; yielding procedures require
the script to yield; the tracker is cleared after the call). -/
def descendStackedBlock : StmtNode → Gen → Except String Gen
  | .controlWait seconds, g => do
      let (duration, g) := localNext g
      let g := emit g "thread.timer = timer();\n"
      let (sec, g) ← descendInput seconds g
      let g := emit g ("var " ++ duration ++ " = Math.max(0, 1000 * " ++ sec.asNumber ++ ");\n")
      let g := requestRedraw g
      let g ← yieldNotWarp g
      let g := emit g ("while (thread.timer.timeElapsed() < " ++ duration ++ ") \x7b\n")
      let g ← yieldStuckOrNotWarp g
      let g := emit g "\x7d\n"
      .ok (emit g "thread.timer = null;\n")
  | .eventBroadcast b, g => do
      let (bc, g) ← descendInput b g
      let g := emit g ("startHats(\"event_whenbroadcastreceived\", \x7b BROADCAST_OPTION: "
        ++ bc.asString ++ " \x7d);\n")
      .ok (resetVariableInputs g)
  | .proceduresCall code variant args isHat, g =>
      match lookupAssoc g.procedures variant with
      | none => .error "unknown procedure variant"
      | some procedureData =>
          if !procedureData.hasStack then .ok g
          else do
            let g ← procCallRecursionYield code g
            let g ← procCallYieldMark procedureData.yields g
            let g := emit g ("thread.procedures[\"" ++ sanitize variant ++ "\"](")
            let g ← procCallArgs procedureData.argCount args g
            let g := emit g ");\n"
            if isHat then .error "custom hat blocks are not suported"
            else .ok (resetVariableInputs g)

/-- The statement loop of `descendStack`: before each statement, the
current frame's `isLastBlock` flag records whether it is the final one. -/
def descendStackLoop : List StmtNode → Gen → Except String Gen
  | [], g => .ok g
  | n :: rest, g => do
      let g := { g with frames := setLastBlockFlag rest.isEmpty g.frames }
      let g ← descendStackedBlock n g
      descendStackLoop rest g

/-- `descendStack`: clear the tracker and push the frame on entry, then
the statement loop, then clear the tracker again and pop the frame. -/
def descendStack (nodes : List StmtNode) (frame : Frame) (g : Gen) : Except String Gen := do
  let g := resetVariableInputs g
  let g := pushFrame g frame
  let g ← descendStackLoop nodes g
  let g := resetVariableInputs g
  .ok (popFrame g)

/-! ## Kinetic interpolator (`interpolateTargets`, direction/scale section)

The interpolator's numerics are modelled over `ℚ`.  The direction average
(`atan2` of summed unit vectors, lines 82-88 of the module) is a
transcendental operation and is abstracted as a parameter `avgAngle`; no
claim depends on its value.  The embedded function returns the arguments
of the `updateDrawableDirectionScale` call, or `none` when the renderer
is not updated (costume changed, or `updateDrawableDirectionScale` stayed
false). -/

/-- Snapshot / current direction, scale and costume of one target. -/
structure DirScaleState where
  direction : ℚ
  scale : ℚ × ℚ
  costume : ℤ

/-- JavaScript `Math.sign` over the rational model (`-0` does not arise
in the interpolator's scale values). -/
def jsMathSign (x : ℚ) : ℚ := if 0 < x then 1 else if x < 0 then -1 else 0

/-- Direction/scale interpolation step of `interpolateTargets` (module
lines 73-112): nothing happens when the costume changed; a changed
direction is replaced by the angle average; scale is midpointed per axis
only when it changed, the signs of both axes agree between snapshot and
current, and the first-axis change is below 100. -/
def interpolateDirectionScale (avgAngle : ℚ → ℚ → ℚ) (snap cur : DirScaleState) :
    Option (ℚ × (ℚ × ℚ)) :=
  let costumeDidChange := cur.costume ≠ snap.costume
  if costumeDidChange then none
  else
    let direction := cur.direction
    let scale := cur.scale
    let step1 : ℚ × Bool :=
      if direction ≠ snap.direction then (avgAngle direction snap.direction, true)
      else (direction, false)
    let startingScale := snap.scale
    let step2 : (ℚ × ℚ) × Bool :=
      if scale.1 ≠ startingScale.1 ∨ scale.2 ≠ startingScale.2 then
        if jsMathSign scale.1 = jsMathSign startingScale.1
            ∧ jsMathSign scale.2 = jsMathSign startingScale.2 then
          if |scale.1 - startingScale.1| < 100 then
            (((scale.1 + startingScale.1) / 2, (scale.2 + startingScale.2) / 2), true)
          else (scale, step1.2)
        else (scale, step1.2)
      else (scale, step1.2)
    if step2.2 then some (step1.1, step2.1) else none

/-- Whether `pat` occurs as a contiguous subsequence of `l` (used to
state where the emitted text does or does not contain `yield`). -/
def containsSeq (pat : List Char) : List Char → Bool
  | [] => pat.isEmpty
  | c :: rest => pat.isPrefixOf (c :: rest) || containsSeq pat rest

/-- String-level wrapper for `containsSeq`. -/
def containsStr (pat s : String) : Bool := containsSeq pat.toList s.toList

/-! ## Claim-side definitions

Each `claimed...` definition transcribes a claim's wording (not the
source), for comparison against the embedded code; each `amended...`
definition states the nearby property that the code actually satisfies. -/

/-- A fixed initial generator state (fresh compile of a non-warp,
non-yielding, non-procedure script with no registered names or
procedures). -/
def exampleGen : Gen :=
  { source := ""
    variableInputs := []
    isWarp := false
    isProcedure := false
    warpTimer := false
    scriptYields := false
    scriptProcedureCode := ""
    frames := []
    localCounter := 0
    names := []
    procedures := [] }

/-- Claim C2's wording: the scan "returns true if the first frame whose
is-last-block flag is false is a loop frame, and false otherwise"
(innermost frame first, hence the reverse). -/
def claimedLastBlockInLoop (frames : List Frame) : Bool :=
  match frames.reverse.find? (fun f => !f.isLastBlock) with
  | some f => f.isLoop
  | none => false

/-- The amended C2 property: scanning innermost-outward, the first frame
that is a loop frame or fails its is-last-block flag must exist, be a
loop frame, and have its is-last-block flag set. -/
def amendedLastBlockInLoop (frames : List Frame) : Bool :=
  match frames.reverse.find? (fun f => f.isLoop || !f.isLastBlock) with
  | some f => f.isLoop && f.isLastBlock
  | none => false

/-- Claim C3's wording: coercion finite and non-NaN, and when zero the
trimmed textual form is non-empty. -/
def claimedConstantAlwaysNumber (v : JSVal) : Bool :=
  !(jsToNumber v).isNaNb && (jsToNumber v).isFiniteb
    && (!(jsToNumber v).isZeroJS || jsTrim (jsValToString v) != "")

/-- The amended C3 property: the finiteness requirement is dropped (the
code accepts infinite coercions). -/
def amendedConstantAlwaysNumber (v : JSVal) : Bool :=
  !(jsToNumber v).isNaNb
    && (!(jsToNumber v).isZeroJS || jsTrim (jsValToString v) != "")

/-- Claim C7's wording for `ConstantInput.asNumber`: `-0` emits `-0`;
NaN and `0` emit `0`; every other coercion emits the stringified coerced
number. -/
def claimedConstantAsNumber (v : JSVal) : String :=
  match jsToNumber v with
  | .negZero => "-0"
  | .nan => "0"
  | .fin m e => if m = 0 then "0" else jsNumToString (.fin m e)
  | n => jsNumToString n

/-- The source text the `pmEventsExpansion.broadcastFunction` case builds
for the broadcast constant `"x"` in a fresh non-warp compile. -/
def broadcastFunctionEmitted : String :=
  "(yield* (function*() \x7b"
  ++ "var a0 = startHats(\"event_whenbroadcastreceived\", \x7b BROADCAST_OPTION: \"x\" \x7d);"
  ++ "waitThreads(a0);"
  ++ "yield;\n"
  ++ "var a1 = undefined;"
  ++ "for (var a2 of a0) \x7b"
  ++ "if (typeof a2.__evex_returnDataa !== \x27undefined\x27) \x7b"
  ++ "return a2.__evex_returnDataa;"
  ++ "\x7d" ++ "\x7d"
  ++ "return \x27\x27;"
  ++ "\x7d)())"

/-- The tracked value of a `VariableInput` is never itself a
`VariableInput` (trivially true for the other flavours). -/
def cleanValue : Inp → Prop
  | .var _ _ (some v) => v.isVariableInput = false
  | _ => True

/-- A generator state whose variable tracker is non-empty, compiling a
yielding script with one known procedure variant `pv` (non-empty,
non-yielding, no arguments). -/
def trackerGen : Gen :=
  { exampleGen with
      scriptYields := true
      variableInputs := [("id", .typed "x.value" TYPE_UNKNOWN)]
      procedures := [("pv", ⟨true, false, 0⟩)] }

/-- The state after lowering `event.broadcast "m"` from `trackerGen`. -/
def c5BroadcastResult : Gen :=
  { trackerGen with
      variableInputs := []
      source := "startHats(\"event_whenbroadcastreceived\", \x7b BROADCAST_OPTION: \"m\" \x7d);\n" }

/-- The state after lowering a call to the procedure `pv` from
`trackerGen`. -/
def c5ProcCallResult : Gen :=
  { trackerGen with
      variableInputs := []
      source := "thread.procedures[\"pv\"]();\n" }

/-- The state after inserting a yield from `trackerGen`. -/
def c5YieldResult : Gen :=
  { trackerGen with
      variableInputs := []
      source := "yield;\n" }

/-- The text a non-warp `control.wait` lowering appends for a constant
seconds input, with local-pool counter `c`: record the timer, compute the
clamped duration, request a redraw, yield once regardless of the
duration, spin on elapsed time with a plain yield (non-warp), and null
the timer on exit. -/
def waitEmission (v : JSVal) (c : Nat) : String :=
  "thread.timer = timer();\n"
  ++ ("var " ++ ("a" ++ base36 c) ++ " = Math.max(0, 1000 * "
      ++ ConstantInput.asNumber v ++ ");\n")
  ++ "runtime.requestRedraw();\n"
  ++ "yield;\n"
  ++ ("while (thread.timer.timeElapsed() < " ++ ("a" ++ base36 c) ++ ") \x7b\n")
  ++ "yield;\n"
  ++ "\x7d\n"
  ++ "thread.timer = null;\n"

/-- A fresh generator state for a yielding, non-warp script. -/
def yieldingGen : Gen := { exampleGen with scriptYields := true }

/-- A fresh generator state for a yielding warp script. -/
def warpGen : Gen := { exampleGen with isWarp := true, scriptYields := true }

/-- Snapshot state for the C9 witness. -/
def c9Snap : DirScaleState := ⟨0, (1, 1), 0⟩

/-- Current state for the C9 witness (midpoint case). -/
def c9Cur : DirScaleState := ⟨90, (2, 1), 0⟩

/-- Current state for the C9 witness (sign-flip case). -/
def c9CurFlip : DirScaleState := ⟨90, (-2, 1), 0⟩

/-- A concrete angle average for the C9 witness. -/
def c9Avg : ℚ → ℚ → ℚ := fun _ _ => 45

/-- The constant (if any) at the bottom of a variable delegation chain. -/
def underlyingConstant : Inp → Option JSVal
  | .const v _ => some v
  | .var _ _ (some i) => underlyingConstant i
  | _ => none

/-- Claim C1 is false on the code: for `op.equals` over the constants
`"10"` and `"010"` the claim predicts the lowercased-string compare, but
both constants satisfy `isAlwaysNumber` (both coerce to the finite
non-zero 10), so the both-always-number branch fires first and the
compiler emits the numeric fold `(10 === 10)`.  The round-trip check of
`isSafeConstantForEqualsOptimization` (which `"010"` indeed fails) is
never consulted on this input. -/
theorem c1_counterexample :
    equalsStrategy (.const (.str "10") true) (.const (.str "010") true) = .numeric ∧
    equalsStrategy (.const (.str "10") true) (.const (.str "010") true) ≠ .stringCompare ∧
    equalsSource (.const (.str "10") true) (.const (.str "010") true) = "(10 === 10)" ∧
    isSafeConstantForEqualsOptimization (.const (.str "010") true) = false := by
  refine ⟨rfl, by decide, rfl, by decide⟩

/-- Claim C1, amended: for `op.equals` applied to the constants `"10"`
and `"010"`, the compiler emits the numeric `===` comparison
`(10 === 10)` (both operands are always-number), not the
lowercased-string comparison. -/
theorem c1_numeric_compare :
    descendInput (.opEquals (.constant (.str "10")) (.constant (.str "010"))) exampleGen
      = .ok (.typed "(10 === 10)" TYPE_BOOLEAN, exampleGen) ∧
    Inp.isAlwaysNumber (.const (.str "10") true) = true ∧
    Inp.isAlwaysNumber (.const (.str "010") true) = true := by
  refine ⟨rfl, by decide, by decide⟩

/-- Shared helper: the frame scan of `isLastBlockInLoop` finds the first
frame that is a loop or not a last block, and answers true only when it
is a loop frame with its last-block flag set. -/
theorem lastBlockScan_eq_find (l : List Frame) :
    lastBlockScan l = (match l.find? (fun f => f.isLoop || !f.isLastBlock) with
      | some f => f.isLoop && f.isLastBlock
      | none => false) := by
  induction l with
  | nil => rfl
  | cons f rest ih =>
      rcases hlb : f.isLastBlock with _ | _ <;> rcases hlp : f.isLoop with _ | _ <;>
        simp [lastBlockScan, List.find?, hlb, hlp, ih]

/-- Claim C2 is false on the code as worded: with the single frame stack
`[loop frame whose is-last-block flag is false]`, the first frame whose
is-last-block flag is false is a loop frame, so the claim answers true;
the code checks the is-last-block flag first and returns false. -/
theorem c2_counterexample :
    Gen.isLastBlockInLoop { exampleGen with frames := [⟨true, false⟩] } = false ∧
    claimedLastBlockInLoop [⟨true, false⟩] = true := by
  exact ⟨rfl, rfl⟩

/-- Claim C2, amended: `isLastBlockInLoop` returns true iff, scanning the
frame stack from the innermost frame outward, the first frame that is a
loop frame or whose is-last-block flag is false exists, is a loop frame,
and has its is-last-block flag set — i.e. every frame up to and including
the innermost loop frame is a last block. -/
theorem c2_scan_characterization (g : Gen) :
    g.isLastBlockInLoop = amendedLastBlockInLoop g.frames := by
  unfold Gen.isLastBlockInLoop amendedLastBlockInLoop
  exact lastBlockScan_eq_find g.frames.reverse

/-- Claim C3 is false on the code as worded: the constant `"Infinity"`
coerces to an infinite (non-finite, non-NaN, non-zero) number, for which
`isAlwaysNumber` returns true while the claim requires finiteness. -/
theorem c3_counterexample :
    ConstantInput.isAlwaysNumber (.str "Infinity") = true ∧
    (jsToNumber (.str "Infinity")).isFiniteb = false ∧
    claimedConstantAlwaysNumber (.str "Infinity") = false := by
  refine ⟨by decide, by decide, by decide⟩

/-- Claim C3, amended: for every constant, `isAlwaysNumber` returns true
iff the numeric coercion of the literal is non-NaN and, when that
coercion is zero, the trimmed textual form of the literal is non-empty
(finiteness is not required: infinite coercions are accepted). -/
theorem c3_always_number_characterization (v : JSVal) :
    ConstantInput.isAlwaysNumber v = amendedConstantAlwaysNumber v := by
  unfold ConstantInput.isAlwaysNumber amendedConstantAlwaysNumber
  rcases h : jsToNumber v with _ | _ | _ | _ | ⟨m, e⟩ <;>
    simp [JSNum.isNaNb, JSNum.isZeroJS]
  rcases hz : m == 0 with _ | _ <;> simp_all

/-- Claim C4 is false on the code: with `script.yields` false, lowering a
`pmEventsExpansion.broadcastFunction` input succeeds (no error is thrown)
even though the produced expression contains `yield` — this case never
calls `yielded()` and never consults `script.yields`.  Compilation does
not abort, contradicting the claim that every yield emission is guarded. -/
theorem c4_counterexample :
    exampleGen.scriptYields = false ∧
    descendInput (.broadcastFunction (.constant (.str "x"))) exampleGen
      = .ok (.typed broadcastFunctionEmitted TYPE_STRING, { exampleGen with localCounter := 3 }) ∧
    containsStr "yield" broadcastFunctionEmitted = true := by
  refine ⟨rfl, rfl, by decide⟩

/-- Claim C4, amended: yields emitted through the yield helpers are
guarded — when the script header does not declare `yields`, `yielded`,
`yieldStuckOrNotWarp`, and (outside warp mode) `yieldNotWarp` all abort
compilation with the yield-mismatch error — but yield text written
directly into the source (e.g. by `pmEventsExpansion.broadcastFunction`,
compatibility-layer calls or `control.inlineStackOutput`) bypasses this
check and does not abort. -/
theorem c4_yield_helpers_guarded (g : Gen) (h : g.scriptYields = false) :
    yielded g = .error "Script yielded but is not marked as yielding." ∧
    yieldStuckOrNotWarp g = .error "Script yielded but is not marked as yielding." ∧
    (g.isWarp = false →
      yieldNotWarp g = .error "Script yielded but is not marked as yielding.") := by
  refine ⟨?_, ?_, ?_⟩
  · simp [yielded, h]
  · unfold yieldStuckOrNotWarp
    rcases hw : g.isWarp with _ | _ <;> simp [yielded, emit, h]
  · intro hw
    simp [yieldNotWarp, yielded, emit, hw, h]

/-- Witness for C4's amended theorem at the fresh non-yielding state. -/
theorem c4_witness :
    yielded exampleGen = .error "Script yielded but is not marked as yielding." ∧
    yieldStuckOrNotWarp exampleGen = .error "Script yielded but is not marked as yielding." ∧
    (exampleGen.isWarp = false →
      yieldNotWarp exampleGen = .error "Script yielded but is not marked as yielding.") :=
  c4_yield_helpers_guarded exampleGen rfl

/-- Claim C6: `setInput` preserves the no-variable-stored invariant (a
freshly constructed `VariableInput` satisfies it, assignments of inputs
satisfying it keep it, so it holds after any sequence of `setInput`
calls), and self-assignment `A.setInput(A)` leaves the tracker at `A`'s
previous assignment, or cleared when the tracker was empty.  Because the
stored value is structurally smaller, `isAlwaysNumber`,
`isAlwaysNumberOrNaN` and `isNeverNumber` are total structurally
recursive functions — the claimed termination. -/
theorem c6_setInput_cycle_free :
    (∀ src, cleanValue (.var src TYPE_UNKNOWN none)) ∧
    (∀ a inp, cleanValue a → cleanValue inp →
      cleanValue (VariableInput.setInput a inp)) ∧
    (∀ src ty v, VariableInput.setInput (.var src ty (some v)) (.var src ty (some v))
        = .var src (inputType v) (some v)) ∧
    (∀ src ty, VariableInput.setInput (.var src ty none) (.var src ty none)
        = .var src TYPE_UNKNOWN none) := by
  refine ⟨fun src => trivial, ?_, fun src ty v => rfl, fun src ty => rfl⟩
  intro a inp ha hinp
  rcases a with ⟨s, t⟩ | ⟨v, b⟩ | ⟨s, t, val⟩
  · exact ha
  · exact ha
  · rcases inp with ⟨s', t'⟩ | ⟨v', b'⟩ | ⟨s', t', val'⟩
    · simp [VariableInput.setInput, cleanValue, Inp.isVariableInput]
    · simp [VariableInput.setInput, cleanValue, Inp.isVariableInput]
    · rcases val' with _ | inner
      · simp [VariableInput.setInput, cleanValue]
      · simpa [VariableInput.setInput, cleanValue] using hinp

/-- Witness for C6 at a concrete self-assignment: the tracker of `A`
(holding a typed number) is preserved by `A.setInput(A)` and stays free
of variable values. -/
theorem c6_witness :
    cleanValue (VariableInput.setInput
      (.var "v" TYPE_UNKNOWN (some (.typed "x" TYPE_NUMBER)))
      (.var "v" TYPE_UNKNOWN (some (.typed "x" TYPE_NUMBER)))) ∧
    VariableInput.setInput
      (.var "v" TYPE_UNKNOWN (some (.typed "x" TYPE_NUMBER)))
      (.var "v" TYPE_UNKNOWN (some (.typed "x" TYPE_NUMBER)))
      = .var "v" TYPE_NUMBER (some (.typed "x" TYPE_NUMBER)) :=
  ⟨c6_setInput_cycle_free.2.1 _ _ rfl rfl,
    c6_setInput_cycle_free.2.2.1 "v" TYPE_UNKNOWN (.typed "x" TYPE_NUMBER)⟩

/-- Claim C7: `ConstantInput.asNumber` preserves signed zero — a
coercion of `-0` emits the literal `-0`, NaN and `+0` emit `0`, and every
other coercion emits the stringified coerced number rather than the
original literal text.  (The safe flag plays no role in `asNumber`.) -/
theorem c7_signed_zero_preserved (v : JSVal) :
    ConstantInput.asNumber v = claimedConstantAsNumber v := by
  unfold ConstantInput.asNumber claimedConstantAsNumber
  rcases h : jsToNumber v with _ | _ | _ | _ | ⟨m, e⟩ <;>
    simp [JSNum.truthy, jsNumToString]

/-- Shared helper: peel one `Except` bind off a successful computation. -/
theorem except_bind_ok {α β : Type} (x : Except String α) (f : α → Except String β) (b : β)
    (h : (x >>= f) = .ok b) : ∃ a, x = .ok a ∧ f a = .ok b := by
  cases x with
  | error e => simp [Bind.bind, Except.bind] at h
  | ok a => exact ⟨a, rfl, by simpa [Bind.bind, Except.bind] using h⟩

/-- Claim C5 is false on the code as worded: lowering a procedure call to
an *empty* procedure (one whose `stack` is null) generates no code and
performs no reset, so a non-empty variable tracker stays non-empty
immediately after lowering that procedure call. -/
theorem c5_counterexample :
    descendStackedBlock (.proceduresCall "p" "pv" [] false)
        { trackerGen with procedures := [("pv", ⟨false, false, 0⟩)] }
      = .ok { trackerGen with procedures := [("pv", ⟨false, false, 0⟩)] } ∧
    ({ trackerGen with procedures := [("pv", ⟨false, false, 0⟩)] } : Gen).variableInputs
      ≠ [] := by
  refine ⟨rfl, by simp [trackerGen, exampleGen]⟩

/-- Claim C5, amended: the variable tracker is empty immediately after
entering a stack descent, leaving a stack descent, lowering a procedure
call *to a procedure with a non-null stack*, lowering a broadcast, or
inserting a yield through the yield helpers; only the no-code lowering of
a call to an empty procedure leaves the tracker untouched. -/
theorem c5_tracker_resets (g g2 g3 g4 g5 g6 : Gen) (nodes : List StmtNode) (f : Frame)
    (b : Node) (code variant : String) (args : List Node) (hat : Bool) (pd : ProcData) :
    ((pushFrame (resetVariableInputs g) f).variableInputs = []) ∧
    (descendStack nodes f g = .ok g2 → g2.variableInputs = []) ∧
    (descendStackedBlock (.eventBroadcast b) g = .ok g3 → g3.variableInputs = []) ∧
    (lookupAssoc g.procedures variant = some pd → pd.hasStack = true →
      descendStackedBlock (.proceduresCall code variant args hat) g = .ok g4 →
      g4.variableInputs = []) ∧
    (g.isWarp = false → yieldNotWarp g = .ok g5 → g5.variableInputs = []) ∧
    (yieldStuckOrNotWarp g = .ok g6 → g6.variableInputs = []) := by
  refine ⟨rfl, ?_, ?_, ?_, ?_, ?_⟩
  · intro h
    unfold descendStack at h
    obtain ⟨gm, _, h⟩ := except_bind_ok _ _ _ h
    cases h
    rfl
  · intro h
    unfold descendStackedBlock at h
    obtain ⟨p, _, h⟩ := except_bind_ok _ _ _ h
    obtain ⟨bc, g1⟩ := p
    cases h
    rfl
  · intro hlook hstack h
    simp only [descendStackedBlock] at h
    rw [hlook] at h
    simp only [hstack, Bool.not_true, Bool.false_eq_true, if_false] at h
    obtain ⟨gA, _, h⟩ := except_bind_ok _ _ _ h
    obtain ⟨gB, _, h⟩ := except_bind_ok _ _ _ h
    obtain ⟨gC, _, h⟩ := except_bind_ok _ _ _ h
    cases hat with
    | true => simp at h
    | false =>
        cases h
        rfl
  · intro hw h
    unfold yieldNotWarp at h
    rw [hw] at h
    simp only [Bool.not_false, if_true] at h
    unfold yielded at h
    split at h
    · cases h
    · cases h
      rfl
  · intro h
    unfold yieldStuckOrNotWarp at h
    split at h <;>
      · unfold yielded at h
        split at h
        · cases h
        · cases h
          rfl

/-- Witness for C5's amended theorem: each reset point evaluated at
concrete inputs over `trackerGen` (whose tracker starts non-empty). -/
theorem c5_witness :
    ((pushFrame (resetVariableInputs trackerGen) (Frame.mk' false)).variableInputs = []) ∧
    (c5BroadcastResult.variableInputs = []) ∧
    (c5ProcCallResult.variableInputs = []) ∧
    (c5YieldResult.variableInputs = []) := by
  refine ⟨?_, ?_, ?_, ?_⟩
  · exact (c5_tracker_resets trackerGen trackerGen trackerGen trackerGen trackerGen trackerGen
      [] (Frame.mk' false) (.constant (.str "m")) "p" "pv" [] false ⟨true, false, 0⟩).1
  · exact (c5_tracker_resets trackerGen trackerGen c5BroadcastResult
      trackerGen trackerGen trackerGen
      [] (Frame.mk' false) (.constant (.str "m")) "p" "pv" [] false ⟨true, false, 0⟩).2.2.1 rfl
  · exact (c5_tracker_resets trackerGen trackerGen trackerGen c5ProcCallResult
      trackerGen trackerGen
      [] (Frame.mk' false) (.constant (.str "m")) "p" "pv" [] false ⟨true, false, 0⟩).2.2.2.1
      rfl rfl rfl
  · exact (c5_tracker_resets trackerGen trackerGen trackerGen trackerGen
      c5YieldResult trackerGen
      [] (Frame.mk' false) (.constant (.str "m")) "p" "pv" [] false ⟨true, false, 0⟩).2.2.2.2.1
      rfl rfl

/-- Claim C8 is false on the code as worded: in warp mode, lowering
`control.wait` of the constant `0` emits *no* yield before the spin loop
(`yieldNotWarp` emits nothing under warp), so the yield is not
unconditional; the text up to and including the loop header contains no
`yield` at all. -/
theorem c8_counterexample :
    descendStackedBlock (.controlWait (.constant (.num (.fin 0 0)))) warpGen
      = .ok { warpGen with
          source := "thread.timer = timer();\nvar a0 = Math.max(0, 1000 * 0);\nruntime.requestRedraw();\nwhile (thread.timer.timeElapsed() < a0) \x7b\nif (isStuck()) yield;\n\x7d\nthread.timer = null;\n"
          localCounter := 1 } ∧
    containsStr "yield"
      "thread.timer = timer();\nvar a0 = Math.max(0, 1000 * 0);\nruntime.requestRedraw();\nwhile (thread.timer.timeElapsed() < a0) \x7b\n" = false := by
  refine ⟨rfl, by decide⟩

/-- Claim C8, amended: when the script is not in warp mode, lowering
`control.wait` records `thread.timer`, requests a redraw, then yields at
least once regardless of the seconds value — even the constant `0` —
before the spin loop on elapsed time (whose body is the
stuck-or-not-warp yield), and sets `thread.timer` to null on exit; in
warp mode the pre-loop yield is omitted. -/
theorem c8_wait_emission (g : Gen) (v : JSVal) (hw : g.isWarp = false)
    (hy : g.scriptYields = true) :
    descendStackedBlock (.controlWait (.constant v)) g
      = .ok { g with
          source := g.source ++ waitEmission v g.localCounter
          variableInputs := []
          localCounter := g.localCounter + 1 } := by
  simp only [descendStackedBlock, descendInput, localNext, safeConstantInput, emit,
    requestRedraw, yieldNotWarp, yieldStuckOrNotWarp, yielded, resetVariableInputs,
    hw, hy, Bool.not_false, Bool.not_true, Bool.false_eq_true, Bool.true_eq_false,
    if_true, if_false, Bind.bind, Except.bind,
    Inp.asNumber, waitEmission, String.append_assoc]

/-- Witness for C8's amended theorem: waiting for the constant `0` in a
fresh yielding non-warp compile emits the unconditional yield between
the redraw request and the spin loop. -/
theorem c8_witness :
    descendStackedBlock (.controlWait (.constant (.num (.fin 0 0)))) yieldingGen
      = .ok { yieldingGen with
          source := "thread.timer = timer();\nvar a0 = Math.max(0, 1000 * 0);\nruntime.requestRedraw();\nyield;\nwhile (thread.timer.timeElapsed() < a0) \x7b\nyield;\n\x7d\nthread.timer = null;\n"
          variableInputs := []
          localCounter := 1 } :=
  c8_wait_emission yieldingGen (.num (.fin 0 0)) rfl rfl

/-- Claim C9: in the interpolator's direction/scale step, the drawable's
scale is set to the per-axis midpoint only when the costume is unchanged
(the whole step is skipped otherwise), the signs of both scale axes match
between snapshot and current, and the first-axis change is below 100 in
absolute value; and whenever either axis sign differs, the scale passed
to the renderer (if any update happens at all) is the uninterpolated
current scale. -/
theorem c9_scale_interpolation_guarded (avg : ℚ → ℚ → ℚ) (snap cur : DirScaleState) :
    (∀ d s, interpolateDirectionScale avg snap cur = some (d, s) → s ≠ cur.scale →
      cur.costume = snap.costume ∧
      jsMathSign cur.scale.1 = jsMathSign snap.scale.1 ∧
      jsMathSign cur.scale.2 = jsMathSign snap.scale.2 ∧
      |cur.scale.1 - snap.scale.1| < 100 ∧
      s = ((cur.scale.1 + snap.scale.1) / 2, (cur.scale.2 + snap.scale.2) / 2)) ∧
    ((jsMathSign cur.scale.1 ≠ jsMathSign snap.scale.1 ∨
        jsMathSign cur.scale.2 ≠ jsMathSign snap.scale.2) →
      ∀ d s, interpolateDirectionScale avg snap cur = some (d, s) → s = cur.scale) := by
  constructor
  · intro d s h hne
    simp only [interpolateDirectionScale] at h
    split_ifs at h with h1 h2 h3 h4 h5 <;> simp_all
  · intro hsign d s h
    simp only [interpolateDirectionScale] at h
    split_ifs at h with h1 h2 h3 h4 h5 <;> simp_all

/-- Witness for C9 at concrete states: a genuine midpoint interpolation
(scale 1 → 2 becomes 3/2) satisfies all guards, and a sign flip
(scale 1 → -2) leaves the scale uninterpolated. -/
theorem c9_witness :
    (c9Cur.costume = c9Snap.costume ∧
      jsMathSign c9Cur.scale.1 = jsMathSign c9Snap.scale.1 ∧
      jsMathSign c9Cur.scale.2 = jsMathSign c9Snap.scale.2 ∧
      |c9Cur.scale.1 - c9Snap.scale.1| < 100 ∧
      ((3 : ℚ) / 2, (1 : ℚ))
        = ((c9Cur.scale.1 + c9Snap.scale.1) / 2, (c9Cur.scale.2 + c9Snap.scale.2) / 2)) ∧
    ((-2 : ℚ), (1 : ℚ)) = c9CurFlip.scale := by
  constructor
  · exact (c9_scale_interpolation_guarded c9Avg c9Snap c9Cur).1 45 (3 / 2, 1)
      (by norm_num [interpolateDirectionScale, jsMathSign, c9Avg, c9Snap, c9Cur])
      (by norm_num [c9Cur, Prod.ext_iff])
  · exact (c9_scale_interpolation_guarded c9Avg c9Snap c9CurFlip).2
      (by norm_num [jsMathSign, c9Snap, c9CurFlip]) 45 (-2, 1)
      (by norm_num [interpolateDirectionScale, jsMathSign, c9Avg, c9Snap, c9CurFlip])

/-- Helper for C10: a true `isNeverNumber` always traces back to a
constant whose coercion is NaN. -/
theorem isNeverNumber_has_nan_constant :
    ∀ inp, Inp.isNeverNumber inp = true →
      ∃ v, underlyingConstant inp = some v ∧ jsToNumber v = .nan
  | .typed s t => by simp [Inp.isNeverNumber]
  | .const v b => by
      intro h
      refine ⟨v, rfl, ?_⟩
      rcases hn : jsToNumber v with _ | _ | _ | _ | ⟨m, e⟩ <;>
        simp_all [Inp.isNeverNumber, JSNum.isNaNb]
  | .var s t none => by simp [Inp.isNeverNumber]
  | .var s t (some i) => by
      intro h
      simpa [Inp.isNeverNumber, underlyingConstant] using
        isNeverNumber_has_nan_constant i (by simpa [Inp.isNeverNumber] using h)

/-- Claim C10: `TypedInput.isNeverNumber` is false for every type tag
(including `TYPE_STRING` and `TYPE_BOOLEAN`); a true `isNeverNumber`
only arises from a `ConstantInput` with NaN coercion (possibly through
`VariableInput` delegation); and consequently a `TypedInput` operand can
never, by itself, send `op.equals`, `op.less` or `op.greater` into the
never-number lowercased-string branch. -/
theorem c10_typed_never_number :
    (∀ s t, Inp.isNeverNumber (.typed s t) = false) ∧
    (∀ inp, Inp.isNeverNumber inp = true →
      ∃ v, underlyingConstant inp = some v ∧ jsToNumber v = .nan) ∧
    (∀ s t r, Inp.isNeverNumber r = false →
      equalsStrategy (.typed s t) r ≠ .stringCompare ∧
      equalsStrategy r (.typed s t) ≠ .stringCompare ∧
      lessStrategy (.typed s t) r ≠ .stringCompare ∧
      lessStrategy r (.typed s t) ≠ .stringCompare ∧
      greaterStrategy (.typed s t) r ≠ .stringCompare ∧
      greaterStrategy r (.typed s t) ≠ .stringCompare) := by
  refine ⟨fun s t => rfl, isNeverNumber_has_nan_constant, ?_⟩
  intro s t r hr
  refine ⟨?_, ?_, ?_, ?_, ?_, ?_⟩ <;>
    · simp only [equalsStrategy, lessStrategy, greaterStrategy,
        Inp.isNeverNumber, hr, Bool.or_false, Bool.false_or]
      split_ifs <;> simp_all

/-- Witness for C10: the numeric-typed input against the non-NaN
constant `"5"` never selects the string-compare branch in any of the
three comparison lowerings, while the NaN constant `"abc"` is traced to
itself as the NaN source. -/
theorem c10_witness :
    (equalsStrategy (.typed "x" TYPE_STRING) (.const (.str "5") true) ≠ .stringCompare ∧
      equalsStrategy (.const (.str "5") true) (.typed "x" TYPE_STRING) ≠ .stringCompare ∧
      lessStrategy (.typed "x" TYPE_STRING) (.const (.str "5") true) ≠ .stringCompare ∧
      lessStrategy (.const (.str "5") true) (.typed "x" TYPE_STRING) ≠ .stringCompare ∧
      greaterStrategy (.typed "x" TYPE_STRING) (.const (.str "5") true) ≠ .stringCompare ∧
      greaterStrategy (.const (.str "5") true) (.typed "x" TYPE_STRING) ≠ .stringCompare) ∧
    (∃ v, underlyingConstant (.const (.str "abc") true) = some v ∧ jsToNumber v = .nan) := by
  constructor
  · exact c10_typed_never_number.2.2 "x" TYPE_STRING (.const (.str "5") true) (by decide)
  · exact c10_typed_never_number.2.1 (.const (.str "abc") true) (by decide)
